import Mathlib

/-!
Verification of the lead-search front end in `src/script.js`.

The JavaScript source is shallowly embedded: JS objects decoded from a
spreadsheet (and result records) become ordered key-value lists, the
orchestration in `handleSearch` becomes a pure function from the form
inputs, the selected/cached attachment and the remote-response oracles to
the ordered list of network calls plus a final outcome, and the export
helpers become pure string/list functions.  External library calls
(`XLSX.read`) are passed in as oracle parameters; the two library behaviours
the repository relies on (`sheet_to_json` with `defval: ""` and
`json_to_sheet`) are modelled from the spec, as marked on their definitions.
-/

namespace TelsLeads

/-- A decoded spreadsheet row or a result record: a JS object seen as an
ordered list of key-value pairs (JS objects preserve insertion order). -/
abbrev Rec := List (String × String)

/-- The double-quote character. -/
def quoteChar : Char := Char.ofNat 34

/-- The apostrophe character. -/
def apostChar : Char := Char.ofNat 39

/-- ASCII lower-casing of one character, as `String.prototype.toLowerCase`
acts on the ASCII range (the only range exercised by this program). -/
def asciiLower (c : Char) : Char :=
  if 'A' ≤ c ∧ c ≤ 'Z' then Char.ofNat (c.toNat + 32) else c

/-- JS `s.toLowerCase()` restricted to ASCII. -/
def jsToLower (s : String) : String := ⟨s.data.map asciiLower⟩

/-- Does `hay` start with `needle`? -/
def startsWithL : List Char → List Char → Bool
  | _, [] => true
  | [], _ :: _ => false
  | c :: cs, d :: ds => c = d && startsWithL cs ds

/-- Is `needle` a contiguous sublist of `hay`? -/
def containsSub : List Char → List Char → Bool
  | [], needle => needle.isEmpty
  | c :: t, needle => startsWithL (c :: t) needle || containsSub t needle

/-- JS `s.includes(sub)`. -/
def jsIncludes (s sub : String) : Bool := containsSub s.data sub.data

/-- JS `a || b` on strings (only the empty string is falsy). -/
def jsOrS (a b : String) : String := if a = "" then b else a

/-- JS truthiness test (negated) for a possibly-missing string value:
`!v` is true exactly when the property is absent or the empty string. -/
def isFalsyO : Option String → Bool
  | none => true
  | some s => s == ""

/-- JS `(v || d)` where `v` is a possibly-missing string property. -/
def jsOrOpt (o : Option String) (d : String) : String :=
  match o with
  | none => d
  | some s => if s = "" then d else s

/-- JS property access `r[k]` on an object. -/
def jsLookup (r : Rec) (k : String) : Option String :=
  (r.find? (fun kv => kv.1 == k)).map (fun kv => kv.2)

/-- The three form fields (script.js:84-86). -/
structure Criteria where
  name : String
  location : String
  technology : String
  deriving DecidableEq

/-- The canonical record shape produced by the local mapper (script.js:534-540). -/
structure LeadRecord where
  name : String
  location : String
  technology : String
  email : String
  phone : String
  deriving DecidableEq

/-- The file payload built in `handleSearch` / cached in session storage
(script.js:95-99). -/
structure Attachment where
  fileData : String
  fileName : String
  fileMimeType : String
  deriving DecidableEq

/-- A browser `File` together with its `FileReader` data-URI encoding
(the result of `toBase64`, script.js:460-467). -/
structure DomFile where
  name : String
  mimeType : String
  dataUri : String
  deriving DecidableEq

/-- The JSON body sent to a search webhook (script.js:117). -/
structure Payload where
  name : String
  location : String
  technology : String
  fileData : Option String
  fileName : Option String
  fileMimeType : Option String
  deriving DecidableEq

/-! ### Local spreadsheet search (`processLocalFile`, script.js:475-549) -/

/-- The `getValue` helper inside the filter (script.js:501-504): first key
whose lower-cased text contains the prefix, value lower-cased, else "". -/
def getValue (row : Rec) (keyPrefix : String) : String :=
  match row.find? (fun kv => jsIncludes (jsToLower kv.1) keyPrefix) with
  | some kv => jsToLower kv.2
  | none => ""

/-- The row filter of `processLocalFile` (script.js:499-524). -/
def filterRow (criteria : Criteria) (row : Rec) : Bool :=
  let rowName := getValue row "name"
  let rowLocation := getValue row "location"
  let rowTech := jsOrS (getValue row "tech") (getValue row "skill")
  let searchName := jsToLower criteria.name
  let searchLocation := jsToLower criteria.location
  let searchTech := jsToLower criteria.technology
  let matchName := searchName == "" || jsIncludes rowName searchName
  let matchLocation := searchLocation == "" || jsIncludes rowLocation searchLocation
  let matchTech := searchTech == "" || jsIncludes rowTech searchTech
  matchName && matchLocation && matchTech

/-- The `findVal` helper inside the mapper (script.js:529-532): first key
whose lower-cased text contains the part, `row[key] || ""`, else "". -/
def findVal (row : Rec) (keyPart : String) : String :=
  match row.find? (fun kv => jsIncludes (jsToLower kv.1) keyPart) with
  | some kv => jsOrS kv.2 ""
  | none => ""

/-- The mapper of `processLocalFile` producing the standard record shape
(script.js:527-541). -/
def normalizeRow (row : Rec) : LeadRecord :=
  { name := findVal row "name"
    location := jsOrS (findVal row "location") (findVal row "city")
    technology := jsOrS (findVal row "tech") (findVal row "skill")
    email := jsOrS (findVal row "email") (findVal row "mail")
    phone := jsOrS (jsOrS (findVal row "phone") (findVal row "mobile")) (findVal row "contact") }

/-- Modelled from the spec: a SheetJS worksheet, seen as its header row and
its data rows, where a cell is `none` when blank/absent. -/
structure Sheet where
  headers : List String
  rows : List (List (Option String))
  deriving DecidableEq

/-- Modelled from the spec: a SheetJS workbook (`SheetNames` plus the
name-indexed `Sheets` map). -/
structure Workbook where
  sheetNames : List String
  sheets : List (String × Sheet)
  deriving DecidableEq

/-- JS `workbook.Sheets[n]`. -/
def lookupSheet (wb : Workbook) (n : String) : Option Sheet :=
  (wb.sheets.find? (fun p => p.1 == n)).map (fun p => p.2)

/-- One output row of `sheet_to_json` with `defval: ""`: every header key is
present, blank cells become the empty string. -/
def rowCells : List String → List (Option String) → Rec
  | [], _ => []
  | h :: hs, [] => (h, "") :: rowCells hs []
  | h :: hs, c :: cs => (h, c.getD "") :: rowCells hs cs

/-- Modelled from the spec: `XLSX.utils.sheet_to_json(ws, { defval: "" })`
(script.js:491) — each data row becomes an object keyed by the headers, with
empty cells decoded to the empty string rather than dropped. -/
def sheetToJson (ws : Sheet) : List Rec :=
  ws.rows.map (rowCells ws.headers)

/-- JS `String.prototype.split(',')` over the characters of a string. -/
def splitComma : List Char → List (List Char)
  | [] => [[]]
  | c :: rest =>
    if c = ',' then [] :: splitComma rest
    else
      match splitComma rest with
      | [] => [[c]]
      | h :: t => (c :: h) :: t

/-- `base64Data.split(',')[1] || base64Data` (script.js:482). -/
def cleanBase64 (s : String) : String :=
  match (splitComma s.data).get? 1 with
  | some t => if t.isEmpty then s else ⟨t⟩
  | none => s

/-- The body of `processLocalFile` once `XLSX.read` has produced a workbook
(script.js:487-543): take the first sheet, convert it to row objects,
filter, then map to the standard shape.  A workbook with no first sheet
makes `sheet_to_json(undefined)` throw, which the surrounding catch turns
into a rejection. -/
def decodeWorkbook (wb : Workbook) (criteria : Criteria) : Except String (List LeadRecord) :=
  match wb.sheetNames with
  | [] => Except.error "no sheet"
  | n :: _ =>
    match lookupSheet wb n with
    | none => Except.error "no sheet"
    | some ws =>
      let jsonData := sheetToJson ws
      let results := jsonData.filter (filterRow criteria)
      Except.ok (results.map normalizeRow)

/-- `processLocalFile` (script.js:475-549); the `XLSX.read` call is the
`xread` oracle, whose exception becomes the rejection of the promise. -/
def processLocalFile (xread : String → Except String Workbook) (base64Data : String)
    (criteria : Criteria) : Except String (List LeadRecord) :=
  match xread (cleanBase64 base64Data) with
  | Except.error e => Except.error e
  | Except.ok wb => decodeWorkbook wb criteria

/-! ### Search orchestration (`handleSearch`, script.js:80-185) -/

/-- One network request issued by the page, in issue order. -/
inductive NetCall
  | telemetry (name location technology : String) (file : Option DomFile)
  | primary (p : Payload)
  | redrob (p : Payload)
  deriving DecidableEq

/-- The observable end state of one submission. -/
inductive Outcome
  | validationError
  | rendered (data : List Rec)
  | noData
  | errorNotified
  deriving DecidableEq

/-- The object shape `processLocalFile` resolves with, as rendered. -/
def LeadRecord.toRec (x : LeadRecord) : Rec :=
  [("name", x.name), ("location", x.location), ("technology", x.technology),
   ("email", x.email), ("phone", x.phone)]

/-- The payload built from a freshly selected file (script.js:93-99). -/
def attachmentOfFile (f : DomFile) : Attachment := ⟨f.dataUri, f.name, f.mimeType⟩

/-- Option A (new file) takes precedence over Option B (cached payload)
(script.js:90-115). -/
def effAttachment : Option DomFile → Option Attachment → Option Attachment
  | some f, _ => some (attachmentOfFile f)
  | none, cached => cached

/-- `{ ...{ name, location, technology }, ...filePayload }` (script.js:117). -/
def mkPayload (n l t : String) : Option Attachment → Payload
  | some a => ⟨n, l, t, some a.fileData, some a.fileName, some a.fileMimeType⟩
  | none => ⟨n, l, t, none, none, none⟩

/-- `isExcelOrCsv` (script.js:160). -/
def isExcelOrCsv (a : Attachment) : Bool :=
  jsIncludes a.fileMimeType "sheet" || jsIncludes a.fileMimeType "excel" ||
    jsIncludes a.fileMimeType "csv" || a.fileName.endsWith ".csv" ||
    a.fileName.endsWith ".xlsx"

/-- `searchData` against a webhook plus the render/no-data decision
(script.js:165-183, 236-252): the POST is issued, then a non-2xx response
or json failure is the error branch of the oracle. -/
def remoteSearch (calls : List NetCall) (payload : Payload)
    (primaryResp : Payload → Except Unit (List Rec)) : List NetCall × Outcome :=
  match primaryResp payload with
  | Except.ok data =>
    (calls ++ [NetCall.primary payload],
      if data.length > 0 then Outcome.rendered data else Outcome.noData)
  | Except.error _ => (calls ++ [NetCall.primary payload], Outcome.errorNotified)

/-- `handleSearch` (script.js:80-185) as a function of the form fields, the
selected file, the cached payload, the primary-webhook oracle and the
`XLSX.read` oracle.  Returns the network calls in issue order together with
the outcome.  Validation (script.js:120) runs before the fire-and-forget
telemetry POST (script.js:139) and before any search request. -/
def handleSearchModel (name location technology : String) (selected : Option DomFile)
    (cached : Option Attachment) (primaryResp : Payload → Except Unit (List Rec))
    (xread : String → Except String Workbook) : List NetCall × Outcome :=
  let att := effAttachment selected cached
  let payload := mkPayload name location technology att
  if name == "" && location == "" && technology == "" && isFalsyO payload.fileData then
    ([], Outcome.validationError)
  else
    let calls := [NetCall.telemetry name location technology selected]
    if isFalsyO payload.fileData then
      remoteSearch calls payload primaryResp
    else
      match att with
      | some a =>
        if isExcelOrCsv a then
          match processLocalFile xread a.fileData ⟨name, location, technology⟩ with
          | Except.ok data =>
            (calls, if data.length > 0 then Outcome.rendered (data.map LeadRecord.toRec)
                    else Outcome.noData)
          | Except.error _ => (calls, Outcome.errorNotified)
        else remoteSearch calls payload primaryResp
      | none => remoteSearch calls payload primaryResp

/-! ### Rendering and exports (script.js:258-277, 553-622) -/

/-- The fixed export field order (script.js:559). -/
def exportFields : List String := ["name", "location", "technology", "email", "phone"]

/-- JS `String.prototype.replace` with a global single-character pattern. -/
def charReplace (c : Char) (rep : String) (s : String) : String :=
  ⟨s.data.foldr (fun x acc => (if x = c then rep.data else [x]) ++ acc) []⟩

/-- `escapeHtml` (script.js:356-364) on a string input: the five global
replacements, applied in source order. -/
def escapeHtml (s : String) : String :=
  charReplace apostChar "&#039;"
    (charReplace quoteChar "&quot;"
      (charReplace '>' "&gt;"
        (charReplace '<' "&lt;"
          (charReplace '&' "&amp;" s))))

/-- The string substituted into a table cell before HTML escaping:
`row.f || '-'` (script.js:265-269). -/
def renderSubstVal (r : Rec) (f : String) : String := jsOrOpt (jsLookup r f) "-"

/-- The rendered text of one table cell (script.js:262-270). -/
def renderCellText (r : Rec) (f : String) : String := escapeHtml (renderSubstVal r f)

/-- The five cells `renderTable` writes for one record. -/
def renderRowCells (r : Rec) : List String := exportFields.map (renderCellText r)

/-- The whole rendered table body, one record per row (script.js:262-272). -/
def renderRows (data : List Rec) : List (List String) := data.map renderRowCells

/-- The CSV cell value before quoting: `row[field] || ''` (script.js:566). -/
def csvFieldVal (r : Rec) (f : String) : String := jsOrOpt (jsLookup r f) ""

/-- JS `String(val).replace(/"/g, '""')` (script.js:568). -/
def escapeQuotes (s : String) : String :=
  ⟨s.data.foldr (fun x acc => if x = quoteChar then quoteChar :: quoteChar :: acc else x :: acc) []⟩

/-- Collapsing doubled quotes: the inverse reading of `escapeQuotes`. -/
def unescapeQuotes : List Char → List Char
  | [] => []
  | c :: rest =>
    if c = quoteChar then
      match rest with
      | [] => [c]
      | c2 :: rest2 =>
        if c2 = quoteChar then quoteChar :: unescapeQuotes rest2
        else c :: unescapeQuotes (c2 :: rest2)
    else c :: unescapeQuotes rest

/-- `unescapeQuotes` lifted to strings. -/
def unescapeQuotesS (s : String) : String := ⟨unescapeQuotes s.data⟩

/-- One quoted CSV value (script.js:568). -/
def csvQuote (v : String) : String :=
  String.singleton quoteChar ++ escapeQuotes v ++ String.singleton quoteChar

/-- One CSV data line: the five quoted values joined by commas
(script.js:565-570). -/
def csvLine (r : Rec) : String :=
  String.intercalate "," (exportFields.map (fun f => csvQuote (csvFieldVal r f)))

/-- The `csvRows.push` loop of `downloadCSV` (script.js:564-571). -/
def csvRowsLoop : List Rec → List String → List String
  | [], acc => acc
  | r :: rs, acc => csvRowsLoop rs (acc ++ [csvLine r])

/-- `downloadCSV` (script.js:553-583): the produced file content, or `none`
when there are no records (the early return). -/
def downloadCSV (currentData : List Rec) : Option String :=
  if currentData.length = 0 then none
  else some (String.intercalate "\n"
    (csvRowsLoop currentData [String.intercalate "," exportFields]))

/-- Modelled from the spec: `XLSX.utils.json_to_sheet(currentData)` in
`downloadExcel` (script.js:585-595) — the workbook export contains the same
records as rows, every field of each record serialized as given; `none`
when there are no records (the early return). -/
def excelExportRows (currentData : List Rec) : Option (List Rec) :=
  if currentData.length = 0 then none else some currentData

/-- One row of the `tableData` body built by `downloadPDF`
(script.js:606-612): the raw five property reads, in the fixed order. -/
def pdfRow (row : Rec) : List (Option String) :=
  [jsLookup row "name", jsLookup row "location", jsLookup row "technology",
   jsLookup row "email", jsLookup row "phone"]

/-- The `tableData` body built by `downloadPDF` (script.js:597-622);
`none` when there are no records (the early return). -/
def pdfTableData (currentData : List Rec) : Option (List (List (Option String))) :=
  if currentData.length = 0 then none
  else some (currentData.map pdfRow)

/-- The five raw property reads `renderTable` performs on one record. -/
def rawProject5 (r : Rec) :
    Option String × Option String × Option String × Option String × Option String :=
  (jsLookup r "name", jsLookup r "location", jsLookup r "technology",
   jsLookup r "email", jsLookup r "phone")

/-! ### Fallback search (`handleRedrobSearch`, script.js:190-228) -/

/-- The user-visible pieces of page state that the fallback flow touches. -/
structure UIState where
  noDataHidden : Bool
  noDataH3 : String
  noDataP : String
  redrobBtnHidden : Bool
  resultsHidden : Bool
  currentData : List Rec
  notes : List String
  deriving DecidableEq

/-- The default no-data copy (script.js:316): it contains an apostrophe. -/
def noResultsP : String :=
  "We couldn" ++ String.singleton apostChar ++
    "t find any results in our sheets or your uploaded file."

/-- `showNoData` (script.js:313-320). -/
def showNoDataM (ui : UIState) : UIState :=
  { ui with noDataH3 := "No matching leads found",
            noDataP := noResultsP,
            redrobBtnHidden := false,
            noDataHidden := false }

/-- `renderTable` as a state update (script.js:258-277). -/
def renderTableM (data : List Rec) (ui : UIState) : UIState :=
  { ui with currentData := data, resultsHidden := false }

/-- `handleRedrobSearch` (script.js:190-228): builds a criteria-only payload,
POSTs it to the secondary webhook, and on an empty result walks through
`showNoData` and then the three "still no results" mutations. -/
def handleRedrobSearchM (n l t : String) (redrob : Payload → Except Unit (List Rec))
    (ui : UIState) : List NetCall × UIState :=
  let payload : Payload := ⟨n, l, t, none, none, none⟩
  let ui1 := { ui with noDataHidden := true }
  match redrob payload with
  | Except.ok data =>
    if data.length > 0 then ([NetCall.redrob payload], renderTableM data ui1)
    else
      let ui2 := showNoDataM
        { ui1 with notes := ui1.notes ++ ["No data found on Redrob either."] }
      let ui3 := { ui2 with noDataH3 := "Still no results",
                            noDataP := "We checked Redrob too, but found nothing.",
                            redrobBtnHidden := true }
      ([NetCall.redrob payload], ui3)
  | Except.error _ =>
    ([NetCall.redrob payload],
      { ui1 with notes := ui1.notes ++
          ["Error: Please replace Redrob Webhook URL in script.js."] })

/-! ### Claim-side definitions and concrete inputs -/

/-- Scenario B row as decoded by `sheet_to_json`. -/
def rowJane : Rec := [("Full Name", "Jane Doe"), ("City", "Austin"), ("Skillset", "Go")]

/-- Scenario B criteria: only a location. -/
def critAustin : Criteria := ⟨"", "austin", ""⟩

/-- Scenario B worksheet: headers Full Name, City, Skillset, one data row. -/
def sheetJane : Sheet :=
  ⟨["Full Name", "City", "Skillset"], [[some "Jane Doe", some "Austin", some "Go"]]⟩

/-- Scenario B workbook: the single sheet. -/
def wbJane : Workbook := ⟨["Sheet1"], [("Sheet1", sheetJane)]⟩

/-- Scenario B attachment: a CSV file with a data-URI payload. -/
def fileJane : DomFile := ⟨"leads.csv", "text/csv", "data:text/csv;base64,SGVsbG8"⟩

/-- An `XLSX.read` oracle that decodes scenario B's payload to its workbook. -/
def xreadJane : String → Except String Workbook :=
  fun s => if s == "SGVsbG8" then Except.ok wbJane else Except.error "unreadable"

/-- A filter that follows the words of claim C2: it derives the comparison
strings with the Record Normalizer's header heuristics (location falling
back from "location" to "city", technology from "tech" to "skill") and then
applies the same wildcard-or-substring test per criterion. -/
def filterRowClaimed (criteria : Criteria) (row : Rec) : Bool :=
  let rowName := jsToLower (normalizeRow row).name
  let rowLocation := jsToLower (normalizeRow row).location
  let rowTech := jsToLower (normalizeRow row).technology
  let searchName := jsToLower criteria.name
  let searchLocation := jsToLower criteria.location
  let searchTech := jsToLower criteria.technology
  (searchName == "" || jsIncludes rowName searchName) &&
    (searchLocation == "" || jsIncludes rowLocation searchLocation) &&
    (searchTech == "" || jsIncludes rowTech searchTech)

/-- Does some header of the row contain the given token
(case-insensitively), i.e. would the header scan find a key? -/
def keyMatches (row : Rec) (part : String) : Bool :=
  row.any (fun kv => jsIncludes (jsToLower kv.1) part)

/-- A record carrying a sixth field that rendering never reads. -/
def dExtra : List Rec := [[("name", "A"), ("salary", "100")]]

/-- The same record without the extra field. -/
def dPlain : List Rec := [[("name", "A")]]

/-- The location value of the round-trip example: Chicago, "Loop". -/
def chicagoLoc : String :=
  "Chicago, " ++ String.singleton quoteChar ++ "Loop" ++ String.singleton quoteChar

/-- Its expected CSV form: "Chicago, ""Loop""". -/
def chicagoCsv : String :=
  String.singleton quoteChar ++ "Chicago, " ++ String.singleton quoteChar ++
    String.singleton quoteChar ++ "Loop" ++ String.singleton quoteChar ++
    String.singleton quoteChar ++ String.singleton quoteChar

/-! ### Helper lemmas -/

/-- A failed header scan makes `find?` return nothing. -/
theorem find?_none_of_keyMatches_false (row : Rec) (p : String)
    (h : keyMatches row p = false) :
    row.find? (fun kv => jsIncludes (jsToLower kv.1) p) = none := by
  rw [List.find?_eq_none]
  unfold keyMatches at h
  exact List.any_eq_false.mp h

/-- A field with no matching header resolves to the empty string. -/
theorem findVal_empty_of_no_match (row : Rec) (p : String)
    (h : keyMatches row p = false) : findVal row p = "" := by
  unfold findVal
  rw [find?_none_of_keyMatches_false row p h]

/-- The `csvRows.push` loop is the header accumulator followed by one line
per record. -/
theorem csvRowsLoop_eq (l : List Rec) :
    ∀ acc : List String, csvRowsLoop l acc = acc ++ l.map csvLine := by
  induction l with
  | nil => intro acc; simp [csvRowsLoop]
  | cons r rs ih =>
    intro acc
    simp [csvRowsLoop, ih]

/-- Unescaping steps over a character that is not a quote. -/
theorem unescape_cons_of_ne (c : Char) (hc : c ≠ quoteChar) (rest : List Char) :
    unescapeQuotes (c :: rest) = c :: unescapeQuotes rest := by
  cases rest with
  | nil => simp [unescapeQuotes, hc]
  | cons c2 rest2 => simp [unescapeQuotes, hc]

/-- Unescaping collapses a doubled quote. -/
theorem unescape_quote_quote (rest : List Char) :
    unescapeQuotes (quoteChar :: quoteChar :: rest) = quoteChar :: unescapeQuotes rest := by
  simp [unescapeQuotes]

/-- Collapsing doubled quotes undoes quote doubling (on character lists). -/
theorem unescape_foldr (l : List Char) :
    unescapeQuotes (l.foldr
      (fun x acc => if x = quoteChar then quoteChar :: quoteChar :: acc else x :: acc)
      []) = l := by
  induction l with
  | nil => rfl
  | cons c cs ih =>
    by_cases hc : c = quoteChar
    · subst hc
      rw [List.foldr_cons, if_pos rfl, unescape_quote_quote, ih]
    · rw [List.foldr_cons, if_neg hc, unescape_cons_of_ne c hc, ih]

/-- Quote escaping round-trips: the exported text reproduces the value. -/
theorem unescape_escape (s : String) : unescapeQuotesS (escapeQuotes s) = s := by
  show String.mk (unescapeQuotes (escapeQuotes s).data) = s
  have hdata : (escapeQuotes s).data = s.data.foldr
      (fun x acc => if x = quoteChar then quoteChar :: quoteChar :: acc else x :: acc)
      [] := rfl
  rw [hdata, unescape_foldr]

/-- Two lists of records with the same five-field projections agree under
any function that factors through the projection. -/
theorem map_eq_of_proj_eq {α : Type} (g : Rec → α)
    (hg : ∀ r r2 : Rec, rawProject5 r = rawProject5 r2 → g r = g r2) :
    ∀ d d2 : List Rec, d.map rawProject5 = d2.map rawProject5 →
      d.map g = d2.map g := by
  intro d
  induction d with
  | nil =>
    intro d2 h
    cases d2 with
    | nil => rfl
    | cons r2 rs2 => simp at h
  | cons r rs ih =>
    intro d2 h
    cases d2 with
    | nil => simp at h
    | cons r2 rs2 =>
      simp only [List.map_cons, List.cons.injEq] at h
      simp only [List.map_cons]
      rw [hg r r2 h.1, ih rs2 h.2]

/-- A CSV line reads only the five projected fields. -/
theorem csvLine_proj (r r2 : Rec) (h : rawProject5 r = rawProject5 r2) :
    csvLine r = csvLine r2 := by
  obtain ⟨h1, h2, h3, h4, h5⟩ :
      jsLookup r "name" = jsLookup r2 "name" ∧
        jsLookup r "location" = jsLookup r2 "location" ∧
        jsLookup r "technology" = jsLookup r2 "technology" ∧
        jsLookup r "email" = jsLookup r2 "email" ∧
        jsLookup r "phone" = jsLookup r2 "phone" := by
    simpa [rawProject5, Prod.ext_iff] using h
  simp [csvLine, exportFields, csvFieldVal, h1, h2, h3, h4, h5]

/-- A document-export row reads only the five projected fields. -/
theorem pdfRow_proj (r r2 : Rec) (h : rawProject5 r = rawProject5 r2) :
    pdfRow r = pdfRow r2 := by
  obtain ⟨h1, h2, h3, h4, h5⟩ :
      jsLookup r "name" = jsLookup r2 "name" ∧
        jsLookup r "location" = jsLookup r2 "location" ∧
        jsLookup r "technology" = jsLookup r2 "technology" ∧
        jsLookup r "email" = jsLookup r2 "email" ∧
        jsLookup r "phone" = jsLookup r2 "phone" := by
    simpa [rawProject5, Prod.ext_iff] using h
  simp [pdfRow, h1, h2, h3, h4, h5]

/-- A rendered table row reads only the five projected fields. -/
theorem renderRowCells_proj (r r2 : Rec) (h : rawProject5 r = rawProject5 r2) :
    renderRowCells r = renderRowCells r2 := by
  obtain ⟨h1, h2, h3, h4, h5⟩ :
      jsLookup r "name" = jsLookup r2 "name" ∧
        jsLookup r "location" = jsLookup r2 "location" ∧
        jsLookup r "technology" = jsLookup r2 "technology" ∧
        jsLookup r "email" = jsLookup r2 "email" ∧
        jsLookup r "phone" = jsLookup r2 "phone" := by
    simpa [rawProject5, Prod.ext_iff] using h
  simp [renderRowCells, exportFields, renderCellText, renderSubstVal, h1, h2, h3, h4, h5]

/-- A comma-free prefix becomes the first split segment. -/
theorem splitComma_append (p q : List Char) (hp : ',' ∉ p) :
    splitComma (p ++ ',' :: q) = p :: splitComma q := by
  induction p with
  | nil => simp [splitComma]
  | cons c cs ih =>
    have hc : c ≠ ',' := fun e => hp (e ▸ List.mem_cons_self c cs)
    have hcs : ',' ∉ cs := fun m => hp (List.mem_cons_of_mem c m)
    simp only [List.cons_append, splitComma, List.append_eq]
    rw [if_neg hc, ih hcs]

/-- A comma-free list does not split. -/
theorem splitComma_no_comma (q : List Char) (h : ',' ∉ q) : splitComma q = [q] := by
  induction q with
  | nil => rfl
  | cons c cs ih =>
    have hc : c ≠ ',' := fun e => h (e ▸ List.mem_cons_self c cs)
    have hcs : ',' ∉ cs := fun m => h (List.mem_cons_of_mem c m)
    simp only [splitComma]
    rw [if_neg hc, ih hcs]

/-- The header keys of a `sheet_to_json` row are exactly the sheet headers. -/
theorem rowCells_keys (hs : List String) :
    ∀ cs : List (Option String), (rowCells hs cs).map Prod.fst = hs := by
  induction hs with
  | nil => intro cs; rfl
  | cons h t ih =>
    intro cs
    cases cs with
    | nil => simp [rowCells, ih]
    | cons c cs2 => simp [rowCells, ih]

/-! ### Claim theorems -/

/-- C1: scenario B — CSV attachment with headers Full Name, City, Skillset and
row (Jane Doe, Austin, Go), criteria location "austin".  The local path is
taken (only the telemetry call fires, the primary endpoint is never called)
and the Record Normalizer maps the headers as claimed, but the Criteria
Filter derives its location comparison string only from a header containing
"location" — it never falls back to "city" — so it excludes the row and the
result sequence is empty: the search ends in the no-data state with length 0,
not length 1 as claimed. -/
theorem c1_cityHeader_row_excluded_end_to_end :
    ∀ primaryResp : Payload → Except Unit (List Rec),
      handleSearchModel "" "austin" "" (some fileJane) none primaryResp xreadJane =
        ([NetCall.telemetry "" "austin" "" (some fileJane)], Outcome.noData) ∧
      sheetToJson sheetJane = [rowJane] ∧
      normalizeRow rowJane = ⟨"Jane Doe", "Austin", "Go", "", ""⟩ ∧
      filterRow critAustin rowJane = false ∧
      processLocalFile xreadJane fileJane.dataUri critAustin = Except.ok [] :=
  fun _ => ⟨rfl, rfl, rfl, rfl, rfl⟩

/-- C2: the claim says the Criteria Filter derives its comparison strings
with the same header heuristics as the Record Normalizer, so a row whose
only location-like header is "City" and whose normalized location contains
the criterion must be included.  On the row {City: Austin} with criteria
location "austin" the source filter returns false — its location derivation
never falls back to a "city" header — while the claim-side filter returns
true and the normalized location "Austin" does contain "austin". -/
theorem c2_filter_lacks_city_fallback :
    filterRow critAustin [("City", "Austin")] = false ∧
    filterRowClaimed critAustin [("City", "Austin")] = true ∧
    (normalizeRow [("City", "Austin")]).location = "Austin" ∧
    jsIncludes (jsToLower (normalizeRow [("City", "Austin")]).location)
      (jsToLower critAustin.location) = true := by
  refine ⟨rfl, rfl, rfl, rfl⟩

/-- C4: with all three criteria fields empty, no selected file and no cached
payload, `handleSearch` stops at validation: the outcome is the validation
error and the network-call trace is empty — neither the primary webhook nor
the fire-and-forget telemetry POST is reached, whatever the remote oracles
would answer. -/
theorem c4_empty_criteria_no_attachment_validation :
    ∀ (primaryResp : Payload → Except Unit (List Rec))
      (xread : String → Except String Workbook),
      handleSearchModel "" "" "" none none primaryResp xread =
        ([], Outcome.validationError) :=
  fun _ _ => rfl

/-- C5: with an attachment present (selected or cached) whose payload is
truthy, routing is decided by `isExcelOrCsv`: a spreadsheet/CSV-like
attachment (MIME containing "sheet", "excel" or "csv", or name ending in
.csv/.xlsx) takes the local path, where the only network call is the
telemetry POST and the primary endpoint never sees the attachment; any
other attachment goes to the remote path, where the primary endpoint is
called with the payload carrying the attachment's data-URI unparsed. -/
theorem c5_routing_spreadsheet_local_else_remote :
    ∀ (n l t : String) (selected : Option DomFile) (cached : Option Attachment)
      (primaryResp : Payload → Except Unit (List Rec))
      (xread : String → Except String Workbook) (a : Attachment),
      effAttachment selected cached = some a →
      a.fileData ≠ "" →
      ((isExcelOrCsv a = true →
          (handleSearchModel n l t selected cached primaryResp xread).1 =
            [NetCall.telemetry n l t selected]) ∧
       (isExcelOrCsv a = false →
          (handleSearchModel n l t selected cached primaryResp xread).1 =
            [NetCall.telemetry n l t selected,
             NetCall.primary (mkPayload n l t (some a))])) := by
  intro n l t selected cached primaryResp xread a heff hfd
  have hfalsy : isFalsyO (mkPayload n l t (some a)).fileData = false := by
    simp [mkPayload, isFalsyO, hfd]
  constructor
  · intro hcsv
    simp only [handleSearchModel, heff, hfalsy, Bool.and_false, if_false, hcsv, if_true,
      Bool.false_eq_true, ite_false, ite_true]
    cases hloc : processLocalFile xread a.fileData ⟨n, l, t⟩ <;> simp [hloc]
  · intro hcsv
    simp only [handleSearchModel, heff, hfalsy, Bool.and_false, if_false, hcsv,
      Bool.false_eq_true, ite_false, remoteSearch]
    cases hresp : primaryResp (mkPayload n l t (some a)) <;> simp [hresp]

/-- C5 witness: a concrete CSV attachment takes the local path and issues
only the telemetry call. -/
theorem c5_witness :
    (handleSearchModel "go" "" "" (some fileJane) none (fun _ => Except.ok [])
        (fun _ => Except.error "bad")).1 =
      [NetCall.telemetry "go" "" "" (some fileJane)] :=
  (c5_routing_spreadsheet_local_else_remote "go" "" "" (some fileJane) none
      (fun _ => Except.ok []) (fun _ => Except.error "bad")
      (attachmentOfFile fileJane) rfl (by decide)).1 (by decide)

/-- C8: the Record Normalizer is total — every raw row yields some
`LeadRecord` (five defined string fields), and any field whose header scan
finds no matching key resolves to the empty string. -/
theorem c8_normalizer_total :
    ∀ row : Rec,
      (∃ rec : LeadRecord, normalizeRow row = rec) ∧
      (keyMatches row "name" = false → (normalizeRow row).name = "") ∧
      (keyMatches row "location" = false → keyMatches row "city" = false →
        (normalizeRow row).location = "") ∧
      (keyMatches row "tech" = false → keyMatches row "skill" = false →
        (normalizeRow row).technology = "") ∧
      (keyMatches row "email" = false → keyMatches row "mail" = false →
        (normalizeRow row).email = "") ∧
      (keyMatches row "phone" = false → keyMatches row "mobile" = false →
        keyMatches row "contact" = false → (normalizeRow row).phone = "") := by
  intro row
  refine ⟨⟨normalizeRow row, rfl⟩, ?_, ?_, ?_, ?_, ?_⟩
  · intro h
    simp [normalizeRow, findVal_empty_of_no_match row _ h]
  · intro h1 h2
    simp [normalizeRow, findVal_empty_of_no_match row _ h1,
      findVal_empty_of_no_match row _ h2, jsOrS]
  · intro h1 h2
    simp [normalizeRow, findVal_empty_of_no_match row _ h1,
      findVal_empty_of_no_match row _ h2, jsOrS]
  · intro h1 h2
    simp [normalizeRow, findVal_empty_of_no_match row _ h1,
      findVal_empty_of_no_match row _ h2, jsOrS]
  · intro h1 h2 h3
    simp [normalizeRow, findVal_empty_of_no_match row _ h1,
      findVal_empty_of_no_match row _ h2, findVal_empty_of_no_match row _ h3, jsOrS]

/-- C8 witness: a row with no matching header normalizes to all-empty
fields. -/
theorem c8_witness :
    (normalizeRow [("zzz", "q")]).name = "" ∧
    (normalizeRow [("zzz", "q")]).location = "" ∧
    (normalizeRow [("zzz", "q")]).technology = "" ∧
    (normalizeRow [("zzz", "q")]).email = "" ∧
    (normalizeRow [("zzz", "q")]).phone = "" := by
  have h := c8_normalizer_total [("zzz", "q")]
  exact ⟨h.2.1 (by decide), h.2.2.1 (by decide) (by decide),
    h.2.2.2.1 (by decide) (by decide), h.2.2.2.2.1 (by decide) (by decide),
    h.2.2.2.2.2 (by decide) (by decide) (by decide)⟩

/-- C10: for every record and every one of the five rendered fields, a
falsy value (missing or empty) renders as the literal "-" in the table
while the CSV export writes the empty string for it; a truthy value is
carried into both unchanged; hence the substituted cell values of rendering
and of the CSV export differ exactly on the falsy-valued fields. -/
theorem c10_render_dash_vs_csv_empty :
    ∀ (r : Rec) (f : String), f ∈ exportFields →
      ((isFalsyO (jsLookup r f) = true →
          renderCellText r f = "-" ∧ csvFieldVal r f = "") ∧
       (isFalsyO (jsLookup r f) = false →
          renderSubstVal r f = (jsLookup r f).getD "" ∧
          csvFieldVal r f = (jsLookup r f).getD "") ∧
       (renderSubstVal r f ≠ csvFieldVal r f ↔ isFalsyO (jsLookup r f) = true)) := by
  intro r f _
  cases hv : jsLookup r f with
  | none =>
    have hr : renderCellText r f = "-" := by
      simp only [renderCellText, renderSubstVal, jsOrOpt, hv]
      rfl
    have hc : csvFieldVal r f = "" := by
      simp [csvFieldVal, jsOrOpt, hv]
    refine ⟨fun _ => ⟨hr, hc⟩, fun hfalse => by simp [isFalsyO] at hfalse, ?_⟩
    simp [renderSubstVal, csvFieldVal, jsOrOpt, hv, isFalsyO]
  | some s =>
    by_cases hs : s = ""
    · subst hs
      have hr : renderCellText r f = "-" := by
        simp only [renderCellText, renderSubstVal, jsOrOpt, hv]
        rfl
      have hc : csvFieldVal r f = "" := by
        simp [csvFieldVal, jsOrOpt, hv]
      refine ⟨fun _ => ⟨hr, hc⟩, fun hfalse => by simp [isFalsyO] at hfalse, ?_⟩
      simp [renderSubstVal, csvFieldVal, jsOrOpt, hv, isFalsyO]
    · refine ⟨fun hfalsy => by simp [isFalsyO, hs] at hfalsy, ?_, ?_⟩
      · intro _
        simp [renderSubstVal, csvFieldVal, jsOrOpt, hv, hs]
      · simp [renderSubstVal, csvFieldVal, jsOrOpt, hv, hs, isFalsyO]

/-- C10 witness: on a record whose location is empty and whose name is
truthy, the location cell renders "-" but exports "", and the name field is
identical in both. -/
theorem c10_witness :
    (renderCellText [("name", "Ada")] "location" = "-" ∧
      csvFieldVal [("name", "Ada")] "location" = "") ∧
    (renderSubstVal [("name", "Ada")] "name" =
        (jsLookup [("name", "Ada")] "name").getD "" ∧
      csvFieldVal [("name", "Ada")] "name" =
        (jsLookup [("name", "Ada")] "name").getD "") := by
  refine ⟨(c10_render_dash_vs_csv_empty [("name", "Ada")] "location"
      (by decide)).1 (by decide),
    (c10_render_dash_vs_csv_empty [("name", "Ada")] "name"
      (by decide)).2.1 (by decide)⟩

/-- C3 counterexample: two result sets that agree on every field rendering
reads (and hence render identically and export identically to CSV) produce
different workbook exports, because `downloadExcel` hands the whole records
to the sheet serializer: the workbook export reads the extra field "salary"
that rendering never reads, so the claim that all three exports read exactly
the rendered five fields is false. -/
theorem c3_workbook_export_reads_extra_field :
    dExtra.map rawProject5 = dPlain.map rawProject5 ∧
    renderRows dExtra = renderRows dPlain ∧
    downloadCSV dExtra = downloadCSV dPlain ∧
    excelExportRows dExtra ≠ excelExportRows dPlain := by
  exact ⟨by decide, by decide, by decide, by decide⟩

/-- C3 (amended): the delimited-text and paginated-document exports read
exactly the five fields name, location, technology, email, phone that
rendering reads from each record — two result sets agreeing on those raw
reads render identically and export identically in both formats — and the
delimited-text export substitutes the empty string for a missing value; the
workbook export instead serializes every field of each record, so it can
include fields rendering never reads. -/
theorem c3_amended_exports_read_only_rendered_fields :
    (∀ d d2 : List Rec, d.map rawProject5 = d2.map rawProject5 →
      downloadCSV d = downloadCSV d2 ∧ pdfTableData d = pdfTableData d2 ∧
        renderRows d = renderRows d2) ∧
    (∀ (r : Rec) (f : String), f ∈ exportFields →
      csvFieldVal r f = (jsLookup r f).getD "") := by
  constructor
  · intro d d2 h
    have hlen : d.length = d2.length := by
      have h2 := congrArg List.length h
      simpa using h2
    refine ⟨?_, ?_, ?_⟩
    · unfold downloadCSV
      rw [hlen, csvRowsLoop_eq, csvRowsLoop_eq,
        map_eq_of_proj_eq csvLine csvLine_proj d d2 h]
    · unfold pdfTableData
      rw [hlen, map_eq_of_proj_eq pdfRow pdfRow_proj d d2 h]
    · unfold renderRows
      rw [map_eq_of_proj_eq renderRowCells renderRowCells_proj d d2 h]
  · intro r f _
    cases hv : jsLookup r f with
    | none => simp [csvFieldVal, jsOrOpt, hv]
    | some s =>
      by_cases hs : s = "" <;> simp [csvFieldVal, jsOrOpt, hv, hs]

/-- C3 witness: the two concrete result sets with equal five-field
projections export identically to CSV and to the document table, and the
CSV cell of a concrete record is its raw value with empty-string default. -/
theorem c3_amended_witness :
    (downloadCSV dExtra = downloadCSV dPlain ∧
      pdfTableData dExtra = pdfTableData dPlain ∧
      renderRows dExtra = renderRows dPlain) ∧
    csvFieldVal [("name", "A")] "name" = (jsLookup [("name", "A")] "name").getD "" :=
  ⟨c3_amended_exports_read_only_rendered_fields.1 dExtra dPlain (by decide),
   c3_amended_exports_read_only_rendered_fields.2 [("name", "A")] "name" (by decide)⟩

/-- C7: for a non-empty result set, the CSV export is one header row with
the fixed field order followed by one line per record in sequence order;
quote doubling round-trips, so the exported text reproduces exactly the
exported values; and the record value Chicago, "Loop" exports as
"Chicago, ""Loop""". -/
theorem c7_csv_export_format :
    ∀ data : List Rec, data ≠ [] →
      downloadCSV data = some (String.intercalate "\n"
        ("name,location,technology,email,phone" :: data.map csvLine)) ∧
      (∀ r : Rec, csvLine r = String.intercalate ","
        (exportFields.map (fun f => csvQuote (csvFieldVal r f)))) ∧
      (∀ v : String, unescapeQuotesS (escapeQuotes v) = v) ∧
      csvQuote chicagoLoc = chicagoCsv := by
  intro data hne
  refine ⟨?_, fun r => rfl, unescape_escape, by decide⟩
  unfold downloadCSV
  rw [if_neg (fun h => hne (List.length_eq_zero.mp h)), csvRowsLoop_eq]
  rfl

/-- C7 witness: the export of the one-record Chicago result set, and the
quoting of its location value. -/
theorem c7_witness :
    downloadCSV [[("location", chicagoLoc)]] =
      some (String.intercalate "\n"
        ("name,location,technology,email,phone" ::
          [[("location", chicagoLoc)]].map csvLine)) ∧
    csvQuote chicagoLoc = chicagoCsv := by
  have h := c7_csv_export_format [[("location", chicagoLoc)]] (by decide)
  exact ⟨h.1, h.2.2.2⟩

/-- C6: the Spreadsheet Decoder strips the data-URI prefix up to the first
comma before decoding; the decode depends only on the first sheet of the
workbook; every `sheet_to_json` row carries exactly the header keys, with a
blank cell decoded to the empty string; and a failing read propagates its
error out of `processLocalFile`, making the whole search end in the
user-visible error state with no results rendered. -/
theorem c6_decoder_prefix_firstsheet_defval_abort :
    (∀ p q : List Char, ',' ∉ p → ',' ∉ q → q ≠ [] →
      cleanBase64 ⟨p ++ ',' :: q⟩ = ⟨q⟩) ∧
    (∀ (wb wb2 : Workbook) (c : Criteria),
      wb.sheetNames.head? = wb2.sheetNames.head? →
      (∀ n, wb.sheetNames.head? = some n → lookupSheet wb n = lookupSheet wb2 n) →
      decodeWorkbook wb c = decodeWorkbook wb2 c) ∧
    (∀ ws : Sheet, ∀ r ∈ sheetToJson ws, r.map Prod.fst = ws.headers) ∧
    sheetToJson ⟨["A", "B"], [[some "x"]]⟩ = [[("A", "x"), ("B", "")]] ∧
    (∀ (xread : String → Except String Workbook) (b : String) (c : Criteria)
      (e : String), xread (cleanBase64 b) = Except.error e →
      processLocalFile xread b c = Except.error e) ∧
    (∀ (n l t : String) (f : DomFile) (primaryResp : Payload → Except Unit (List Rec))
      (xread : String → Except String Workbook) (e : String),
      f.dataUri ≠ "" →
      isExcelOrCsv (attachmentOfFile f) = true →
      xread (cleanBase64 f.dataUri) = Except.error e →
      handleSearchModel n l t (some f) none primaryResp xread =
        ([NetCall.telemetry n l t (some f)], Outcome.errorNotified)) := by
  refine ⟨?_, ?_, ?_, by decide, ?_, ?_⟩
  · intro p q hp hq hne
    have hsplit : splitComma (String.mk (p ++ ',' :: q)).data = p :: [q] := by
      show splitComma (p ++ ',' :: q) = p :: [q]
      rw [splitComma_append p q hp, splitComma_no_comma q hq]
    unfold cleanBase64
    rw [hsplit]
    cases q with
    | nil => exact absurd rfl hne
    | cons c t => rfl
  · intro wb wb2 c hhead hsheet
    obtain ⟨ns, ss⟩ := wb
    obtain ⟨ns2, ss2⟩ := wb2
    cases ns with
    | nil =>
      cases ns2 with
      | nil => rfl
      | cons n2 t2 => simp [List.head?] at hhead
    | cons n t =>
      cases ns2 with
      | nil => simp [List.head?] at hhead
      | cons n2 t2 =>
        simp only [List.head?, Option.some.injEq] at hhead
        subst hhead
        have hlk := hsheet n (by simp [List.head?])
        simp only [decodeWorkbook]
        rw [hlk]
  · intro ws r hr
    unfold sheetToJson at hr
    obtain ⟨cells, _, rfl⟩ := List.mem_map.mp hr
    exact rowCells_keys ws.headers cells
  · intro xread b c e h
    unfold processLocalFile
    rw [h]
  · intro n l t f primaryResp xread e hfd hcsv herr
    have hfalsy : isFalsyO (mkPayload n l t (some (attachmentOfFile f))).fileData = false := by
      simp [mkPayload, isFalsyO, attachmentOfFile, hfd]
    have hp : processLocalFile xread (attachmentOfFile f).fileData ⟨n, l, t⟩ =
        Except.error e := by
      show processLocalFile xread f.dataUri ⟨n, l, t⟩ = Except.error e
      unfold processLocalFile
      rw [herr]
    simp only [handleSearchModel, effAttachment, hfalsy, Bool.and_false, if_false,
      Bool.false_eq_true, ite_false, hcsv, if_true, ite_true, hp]

/-- C6 witness: the decoder contract at concrete inputs — a concrete
data-URI payload is stripped to the part after the comma; two concrete
workbooks sharing their first sheet decode identically; the keys of a
concrete decoded row are the sheet headers; a failing read propagates; and
a failing read aborts a concrete local search in the error state. -/
theorem c6_witness :
    cleanBase64 "data:text/csv;base64,QUJD" = "QUJD" ∧
    decodeWorkbook ⟨["S"], [("S", sheetJane)]⟩ critAustin =
      decodeWorkbook ⟨["S", "T"], [("S", sheetJane), ("T", ⟨["x"], []⟩)]⟩ critAustin ∧
    [("A", "x"), ("B", "")].map Prod.fst = (⟨["A", "B"], [[some "x"]]⟩ : Sheet).headers ∧
    processLocalFile (fun _ => Except.error "boom") "payload" critAustin =
      Except.error "boom" ∧
    handleSearchModel "" "austin" "" (some fileJane) none (fun _ => Except.ok [])
        (fun _ => Except.error "boom") =
      ([NetCall.telemetry "" "austin" "" (some fileJane)], Outcome.errorNotified) := by
  have h := c6_decoder_prefix_firstsheet_defval_abort
  refine ⟨h.1 "data:text/csv;base64".data "QUJD".data (by decide) (by decide) (by decide),
    h.2.1 ⟨["S"], [("S", sheetJane)]⟩ ⟨["S", "T"], [("S", sheetJane), ("T", ⟨["x"], []⟩)]⟩
      critAustin (by decide) ?_,
    h.2.2.1 ⟨["A", "B"], [[some "x"]]⟩ [("A", "x"), ("B", "")] (by decide),
    h.2.2.2.2.1 (fun _ => Except.error "boom") "payload" critAustin "boom" rfl,
    h.2.2.2.2.2 "" "austin" "" fileJane (fun _ => Except.ok [])
      (fun _ => Except.error "boom") "boom" (by decide) (by decide) rfl⟩
  intro n hn
  have hn2 : n = "S" := by
    have := Option.some.inj hn
    exact this.symm
  subst hn2
  decide

/-- C9: the fallback search posts exactly one request to the secondary
endpoint carrying the three criteria fields and no attachment fields at
all; and when that search also returns an empty sequence, the final state
shows the distinct exhausted message ("Still no results" / "We checked
Redrob too, but found nothing."), hides the fallback trigger, and keeps the
no-data panel visible. -/
theorem c9_fallback_criteria_only_exhausted :
    ∀ (n l t : String) (redrob : Payload → Except Unit (List Rec)) (ui : UIState),
      (handleRedrobSearchM n l t redrob ui).1 =
        [NetCall.redrob ⟨n, l, t, none, none, none⟩] ∧
      (redrob ⟨n, l, t, none, none, none⟩ = Except.ok [] →
        ((handleRedrobSearchM n l t redrob ui).2.noDataH3 = "Still no results" ∧
         (handleRedrobSearchM n l t redrob ui).2.noDataP =
           "We checked Redrob too, but found nothing." ∧
         (handleRedrobSearchM n l t redrob ui).2.redrobBtnHidden = true ∧
         (handleRedrobSearchM n l t redrob ui).2.noDataHidden = false)) := by
  intro n l t redrob ui
  constructor
  · simp only [handleRedrobSearchM]
    cases redrob ⟨n, l, t, none, none, none⟩ with
    | ok data =>
      by_cases hd : data.length > 0
      · simp [hd]
      · simp [hd]
    | error e => rfl
  · intro hresp
    simp only [handleRedrobSearchM, hresp]
    exact ⟨rfl, rfl, rfl, rfl⟩

/-- C9 witness: a concrete empty fallback response reaches the exhausted
state with the distinct copy, a hidden trigger and a visible panel. -/
theorem c9_witness :
    ((handleRedrobSearchM "a" "" "" (fun _ => Except.ok [])
        ⟨true, "", "", true, true, [], []⟩).2.noDataH3 = "Still no results" ∧
     (handleRedrobSearchM "a" "" "" (fun _ => Except.ok [])
        ⟨true, "", "", true, true, [], []⟩).2.noDataP =
       "We checked Redrob too, but found nothing." ∧
     (handleRedrobSearchM "a" "" "" (fun _ => Except.ok [])
        ⟨true, "", "", true, true, [], []⟩).2.redrobBtnHidden = true ∧
     (handleRedrobSearchM "a" "" "" (fun _ => Except.ok [])
        ⟨true, "", "", true, true, [], []⟩).2.noDataHidden = false) :=
  (c9_fallback_criteria_only_exhausted "a" "" "" (fun _ => Except.ok [])
    ⟨true, "", "", true, true, [], []⟩).2 rfl

end TelsLeads
